import Mathlib

/-!
Verification of the TaxiService client-side validation and fare-estimation
logic (src/script.js) against its specification.

The JavaScript validators are regular-expression tests; we embed them with a
small derivative-based matcher over character classes (`RE`, `matchRE`) and
prove it correct against the declarative reading of each pattern, then state
each validator exactly as the source builds it.  Strings are modelled by their
character lists.  JavaScript `\s` is modelled by the ASCII whitespace
characters (space, tab, line feed, vertical tab, form feed, carriage return),
and case conversion at the ASCII range; all inputs exercised by the
repository are ASCII.
-/

namespace TaxiService

/-! ## Character-level helpers -/

/-- JavaScript `\s` on the ASCII range (space, TAB, LF, VT, FF, CR). -/
def jsWs (c : Char) : Bool :=
  c == ' ' || c == '\t' || c == '\n' || c == Char.ofNat 11 || c == Char.ofNat 12 || c == '\r'

/-- JavaScript `String.prototype.trim`: drop `\s` characters at both ends. -/
def jsTrim (l : List Char) : List Char :=
  ((l.dropWhile jsWs).reverse.dropWhile jsWs).reverse

/-- JavaScript `String.prototype.toLowerCase`, on the ASCII range. -/
def jsToLower (s : String) : String :=
  ⟨s.data.map Char.toLower⟩

/-! ## A regex matcher for the source's patterns -/

/-- Regular expressions over character classes (Brzozowski-style syntax):
`zero` matches nothing, `eps` the empty string, `cls p` any single character
satisfying `p`, plus alternation, concatenation and Kleene star. -/
inductive RE : Type
  | zero : RE
  | eps : RE
  | cls : (Char → Bool) → RE
  | alt : RE → RE → RE
  | seq : RE → RE → RE
  | star : RE → RE

namespace RE

/-- Does the expression accept the empty string? -/
def nullable : RE → Bool
  | zero => false
  | eps => true
  | cls _ => false
  | alt a b => nullable a || nullable b
  | seq a b => nullable a && nullable b
  | star _ => true

/-- Brzozowski derivative with respect to one character. -/
def deriv : RE → Char → RE
  | zero, _ => zero
  | eps, _ => zero
  | cls p, c => if p c then eps else zero
  | alt a b, c => alt (deriv a c) (deriv b c)
  | seq a b, c =>
      if nullable a then alt (seq (deriv a c) b) (deriv b c)
      else seq (deriv a c) b
  | star a, c => seq (deriv a c) (star a)

end RE

/-- Run the derivative matcher over a word. -/
def matchRE : RE → List Char → Bool
  | r, [] => r.nullable
  | r, c :: l => matchRE (r.deriv c) l

/-- One-or-more repetitions of a character class (the regex quantifier `+`). -/
def plusC (p : Char → Bool) : RE :=
  RE.seq (RE.cls p) (RE.star (RE.cls p))

/-- At least `n` characters of a class (the regex quantifier `{n,}`). -/
def atLeast (p : Char → Bool) : Nat → RE
  | 0 => RE.star (RE.cls p)
  | n + 1 => RE.seq (RE.cls p) (atLeast p n)

/-- A single literal character, as a class. -/
def chrRE (c : Char) : RE :=
  RE.cls (fun d => d == c)

/-! ## Validators (src/script.js lines 6-34) -/

/-- The character class `[^\s@]` of the email regex. -/
def emailChar (c : Char) : Bool :=
  !(jsWs c) && !(c == '@')

/-- The email regex `^[^\s@]+@[^\s@]+\.[^\s@]+$` from `isValidEmail`. -/
def emailRE : RE :=
  RE.seq (plusC emailChar)
    (RE.seq (chrRE '@')
      (RE.seq (plusC emailChar)
        (RE.seq (chrRE '.') (plusC emailChar))))

/-- Validator `isValidEmail(email)`: test the email regex on the whole string. -/
def isValidEmail (s : String) : Bool :=
  matchRE emailRE s.data

/-- The character class `[0-9\-\(\)\s+]` of the phone regex. -/
def phoneChar (c : Char) : Bool :=
  c.isDigit || c == '-' || c == '(' || c == ')' || jsWs c || c == '+'

/-- Validator `isValidPhone(phone)`: the regex `^[0-9\-\(\)\s+]{10,}$`. -/
def isValidPhone (s : String) : Bool :=
  matchRE (atLeast phoneChar 10) s.data

/-- The character class `[a-zA-Z\s'-]` of the name regex (ASCII letters,
whitespace, apostrophe, hyphen). -/
def nameChar (c : Char) : Bool :=
  (('a' ≤ c && c ≤ 'z') || ('A' ≤ c && c ≤ 'Z')) || jsWs c || c == Char.ofNat 39 || c == '-'

/-- Validator `isValidName(name)`:
`name.trim().length >= 3 && /^[a-zA-Z\s'-]+$/.test(name)`. -/
def isValidName (s : String) : Bool :=
  decide (3 ≤ (jsTrim s.data).length) && matchRE (plusC nameChar) s.data

/-! ## Date handling (src/script.js lines 29-34)

In `isValidDate`, `new Date(dateString)` on a `YYYY-MM-DD` string (the format
produced by the date input) yields midnight of that calendar day, and
`today.setHours(0,0,0,0)` zeroes the time of the current moment; we model both
at day resolution, as a count of days since 0000-03-01, with the local
timezone identified with UTC.  A string that does not parse as a valid
calendar date gives an invalid date (`NaN`), whose comparisons are all false:
`parseDate` returns `none` there. -/

def digitVal (c : Char) : Nat := c.toNat - 48

def isLeapYear (y : Nat) : Bool :=
  y % 4 == 0 && (!(y % 100 == 0) || y % 400 == 0)

def daysInMonth (y m : Nat) : Nat :=
  if m == 2 then (if isLeapYear y then 29 else 28)
  else if m == 4 || m == 6 || m == 9 || m == 11 then 30
  else 31

/-- Days since 0000-03-01 of a calendar date (civil-from-days construction). -/
def daysFromCivil (y m d : Nat) : Nat :=
  let yy := if m ≤ 2 then y - 1 else y
  let era := yy / 400
  let yoe := yy % 400
  let mp := (m + 9) % 12
  let doy := (153 * mp + 2) / 5 + (d - 1)
  let doe := yoe * 365 + yoe / 4 - yoe / 100 + doy
  era * 146097 + doe

/-- Parse a `YYYY-MM-DD` string into its day number; `none` when the string is
not of that shape or the fields do not form a valid calendar date. -/
def parseDate (s : String) : Option Nat :=
  match s.data with
  | [y1, y2, y3, y4, h1, m1, m2, h2, d1, d2] =>
    if y1.isDigit && y2.isDigit && y3.isDigit && y4.isDigit && h1 == '-' &&
        m1.isDigit && m2.isDigit && h2 == '-' && d1.isDigit && d2.isDigit then
      let y := 1000 * digitVal y1 + 100 * digitVal y2 + 10 * digitVal y3 + digitVal y4
      let m := 10 * digitVal m1 + digitVal m2
      let d := 10 * digitVal d1 + digitVal d2
      if 1 ≤ m && m ≤ 12 && 1 ≤ d && d ≤ daysInMonth y m then
        some (daysFromCivil y m d)
      else none
    else none
  | _ => none

/-- Validator `isValidDate(dateString)`: `selectedDate >= today`, with `today`
the current day (time-of-day zeroed) passed as a day number.  An unparseable
string gives `NaN`, and `NaN >= today` is false. -/
def isValidDate (today : Nat) (s : String) : Bool :=
  match parseDate s with
  | some n => decide (today ≤ n)
  | none => false

/-! ## Numeric coercion for the passengers field

The booking handler evaluates `!passengers || passengers < 1 || passengers > 8`
on the raw field string; the comparisons coerce the string with ToNumber, and
comparisons against `NaN` are false.  `jsToNumber` models ToNumber on strings:
whitespace is trimmed, an empty remainder gives 0, and otherwise a
StrNumericLiteral is parsed — an optionally signed decimal literal (digits
with optional fraction and optional exponent, or `Infinity`) or an unsigned
hexadecimal, octal or binary integer literal — with `NaN` on anything else. -/

/-- JavaScript number values, as far as the comparisons here need them. -/
inductive JSNum : Type
  | nan : JSNum
  | posInf : JSNum
  | negInf : JSNum
  | num : ℚ → JSNum
deriving DecidableEq

/-- Negation of a JS number (for a leading minus sign). -/
def negJS : JSNum → JSNum
  | .nan => .nan
  | .posInf => .negInf
  | .negInf => .posInf
  | .num q => .num (-q)

def digitsVal (l : List Char) : Nat :=
  l.foldl (fun a c => 10 * a + digitVal c) 0

def hexDigit (c : Char) : Bool :=
  c.isDigit || ('a' ≤ c && c ≤ 'f') || ('A' ≤ c && c ≤ 'F')

def hexDigitVal (c : Char) : Nat :=
  if c.isDigit then digitVal c
  else if 'a' ≤ c && c ≤ 'f' then c.toNat - 87
  else c.toNat - 55

/-- Value of a non-empty digit string in a given base; `none` when empty or
out of the base's digit set. -/
def radixVal (base : Nat) (isD : Char → Bool) (v : Char → Nat) (l : List Char) : Option Nat :=
  if !l.isEmpty && l.all isD then
    some (l.foldl (fun a c => base * a + v c) 0)
  else none

/-- SignedInteger of an exponent: an optionally signed digit sequence. -/
def signedDigits (l : List Char) : Option Int :=
  match l with
  | '+' :: r => if !r.isEmpty && r.all Char.isDigit then some (digitsVal r : Int) else none
  | '-' :: r => if !r.isEmpty && r.all Char.isDigit then some (-(digitsVal r : Int)) else none
  | r => if !r.isEmpty && r.all Char.isDigit then some (digitsVal r : Int) else none

/-- ExponentPart: empty (exponent 0), or e/E followed by a SignedInteger;
`none` on malformed input. -/
def expVal (l : List Char) : Option Int :=
  match l with
  | [] => some 0
  | 'e' :: r => signedDigits r
  | 'E' :: r => signedDigits r
  | _ => none

/-- The exact rational value of `ip.fp` times ten to the `e`, built from
integer arithmetic. -/
def decValue (ip fp : List Char) (e : Int) : ℚ :=
  let digits := digitsVal (ip ++ fp)
  let sc : Int := e - fp.length
  if 0 ≤ sc then ((digits * 10 ^ sc.toNat : Nat) : ℚ)
  else (digits : ℚ) / ((10 ^ (-sc).toNat : Nat) : ℚ)

/-- StrUnsignedDecimalLiteral: `Infinity`, or decimal digits with optional
fraction and optional exponent; `NaN` on malformed input. -/
def strUnsignedDec (l : List Char) : JSNum :=
  if l == ['I', 'n', 'f', 'i', 'n', 'i', 't', 'y'] then .posInf
  else
    let ip := l.takeWhile Char.isDigit
    let rest := l.drop ip.length
    match rest with
    | '.' :: r2 =>
      let fp := r2.takeWhile Char.isDigit
      let rest2 := r2.drop fp.length
      if ip.isEmpty && fp.isEmpty then .nan
      else
        match expVal rest2 with
        | some e => .num (decValue ip fp e)
        | none => .nan
    | _ =>
      if ip.isEmpty then .nan
      else
        match expVal rest with
        | some e => .num (decValue ip [] e)
        | none => .nan

/-- StrNumericLiteral: a hexadecimal, octal or binary integer literal (no
sign allowed there), or an optionally signed decimal literal. -/
def strNumericLiteral (l : List Char) : JSNum :=
  match l with
  | '0' :: 'x' :: r => (radixVal 16 hexDigit hexDigitVal r).elim .nan (fun n => .num n)
  | '0' :: 'X' :: r => (radixVal 16 hexDigit hexDigitVal r).elim .nan (fun n => .num n)
  | '0' :: 'o' :: r =>
    (radixVal 8 (fun c => '0' ≤ c && c ≤ '7') digitVal r).elim .nan (fun n => .num n)
  | '0' :: 'O' :: r =>
    (radixVal 8 (fun c => '0' ≤ c && c ≤ '7') digitVal r).elim .nan (fun n => .num n)
  | '0' :: 'b' :: r =>
    (radixVal 2 (fun c => c == '0' || c == '1') digitVal r).elim .nan (fun n => .num n)
  | '0' :: 'B' :: r =>
    (radixVal 2 (fun c => c == '0' || c == '1') digitVal r).elim .nan (fun n => .num n)
  | '+' :: r => strUnsignedDec r
  | '-' :: r => negJS (strUnsignedDec r)
  | r => strUnsignedDec r

/-- JavaScript ToNumber on a string: trim whitespace; an empty remainder
gives 0; otherwise parse a StrNumericLiteral, `NaN` on failure. -/
def jsToNumber (s : String) : JSNum :=
  match jsTrim s.data with
  | [] => .num 0
  | l => strNumericLiteral l

/-- JavaScript `x < r` for a coerced value against a numeric constant:
false on NaN. -/
def jsNumLt : JSNum → ℚ → Bool
  | .nan, _ => false
  | .posInf, _ => false
  | .negInf, _ => true
  | .num q, r => decide (q < r)

/-- JavaScript `x > r` for a coerced value against a numeric constant:
false on NaN. -/
def jsNumGt : JSNum → ℚ → Bool
  | .nan, _ => false
  | .posInf, _ => true
  | .negInf, _ => false
  | .num q, r => decide (r < q)

/-- The failing condition of the passengers check
(`!passengers || passengers < 1 || passengers > 8`). -/
def passengersInvalid (p : String) : Bool :=
  p == "" || jsNumLt (jsToNumber p) 1 || jsNumGt (jsToNumber p) 8


/-! ## Fare estimation (src/script.js lines 240-263) -/

/-- The static `baseFares` table of `updateEstimatedFare`. -/
def baseFares (service : String) : Option Nat :=
  if service == "economy" then some 10
  else if service == "comfort" then some 15
  else if service == "xl" then some 25
  else if service == "premium" then some 40
  else if service == "delivery" then some 8
  else none

/-- Estimator `updateEstimatedFare(service)`: look up `baseFares[service] || 0`
and, only when positive, add the fixed `distanceCharge = 10`; the result is
the displayed (base, total) pair, and `none` means the price panel is hidden
(no estimate). -/
def updateEstimatedFare (service : String) : Option (Nat × Nat) :=
  let baseFare := (baseFares service).getD 0
  if 0 < baseFare then some (baseFare, baseFare + 10) else none

/-! ## Form orchestrators (src/script.js lines 61-204 and 277-352)

Each handler clears errors, then runs a fixed sequence of checks; a failing
check appends its field-scoped message and clears the `isValid` flag, and no
check is skipped because an earlier one failed.  We list the checks in source
order as (failing-condition, field id, message) triples and fold over them
exactly as the sequence of `if` statements does. -/

structure BookingForm where
  service : String
  fullName : String
  email : String
  phone : String
  pickupLocation : String
  dropoffLocation : String
  date : String
  time : String
  passengers : String
  paymentMethod : String
  terms : Bool
  privacy : Bool

structure ContactForm where
  name : String
  email : String
  phone : String
  subject : String
  message : String

/-- One validation step: on a failing condition, append the field error and
clear the aggregate flag; otherwise leave the state unchanged. -/
def checkStep (acc : List (String × String) × Bool) (c : Bool × String × String) :
    List (String × String) × Bool :=
  if c.1 then (acc.1 ++ [(c.2.1, c.2.2)], false) else acc

def runChecks (checks : List (Bool × String × String)) : List (String × String) × Bool :=
  checks.foldl checkStep ([], true)

/-- The booking form checks, in source order (lines 81-175). -/
def bookingChecks (today : Nat) (f : BookingForm) : List (Bool × String × String) :=
  [ (f.service == "", "service", "Please select a service type"),
    (f.fullName == "", "fullName", "Full name is required"),
    (f.fullName != "" && !isValidName f.fullName, "fullName",
      "Full name must be at least 3 characters and contain only letters"),
    (f.email == "", "email", "Email is required"),
    (f.email != "" && !isValidEmail f.email, "email", "Please enter a valid email address"),
    (f.phone == "", "phone", "Phone number is required"),
    (f.phone != "" && !isValidPhone f.phone, "phone",
      "Please enter a valid phone number (at least 10 digits)"),
    (f.pickupLocation == "", "pickupLocation", "Pickup location is required"),
    (f.pickupLocation != "" && decide ((jsTrim f.pickupLocation.data).length < 3),
      "pickupLocation", "Pickup location must be at least 3 characters"),
    (f.dropoffLocation == "", "dropoffLocation", "Drop-off location is required"),
    (f.dropoffLocation != "" && decide ((jsTrim f.dropoffLocation.data).length < 3),
      "dropoffLocation", "Drop-off location must be at least 3 characters"),
    (f.pickupLocation != "" && f.dropoffLocation != "" &&
        jsToLower f.pickupLocation == jsToLower f.dropoffLocation,
      "dropoffLocation", "Pickup and drop-off locations must be different"),
    (f.date == "", "date", "Date is required"),
    (f.date != "" && !isValidDate today f.date, "date", "Please select a date in the future"),
    (f.time == "", "time", "Time is required"),
    (passengersInvalid f.passengers, "passengers", "Please select between 1 and 8 passengers"),
    (f.paymentMethod == "", "paymentMethod", "Please select a payment method"),
    (!f.terms, "terms", "You must agree to the terms and conditions"),
    (!f.privacy, "privacy", "You must agree to the privacy policy") ]

/-- Handler `handleBookingSubmit`: run all booking checks; the first component
is the list of displayed field errors, the second the `isValid` flag that
gates the success transition (hide form, show confirmation). -/
def handleBookingSubmit (today : Nat) (f : BookingForm) : List (String × String) × Bool :=
  runChecks (bookingChecks today f)

/-- The contact form checks, in source order (lines 290-330). -/
def contactChecks (f : ContactForm) : List (Bool × String × String) :=
  [ (f.name == "", "name", "Name is required"),
    (f.name != "" && !isValidName f.name, "name", "Please enter a valid name"),
    (f.email == "", "email", "Email is required"),
    (f.email != "" && !isValidEmail f.email, "email", "Please enter a valid email address"),
    (f.phone == "", "phone", "Phone number is required"),
    (f.phone != "" && !isValidPhone f.phone, "phone", "Please enter a valid phone number"),
    (f.subject == "", "subject", "Please select a subject"),
    (f.message == "", "message", "Message is required"),
    (f.message != "" && decide ((jsTrim f.message.data).length < 10), "message",
      "Message must be at least 10 characters") ]

/-- Handler `handleContactSubmit`: same aggregate-all-errors pattern. -/
def handleContactSubmit (f : ContactForm) : List (String × String) × Bool :=
  runChecks (contactChecks f)

/-! ## Specification-side predicates

These definitions follow the words of the specification claims (not the
source); they are compared against the source-derived functions above. -/

/-- Spec wording for the email format: exactly one at-sign, with at least one
non-whitespace non-at character before it, at least one dot after the at-sign
with non-empty segments around it, and no whitespace anywhere. -/
def emailSpec (l : List Char) : Prop :=
  l.count '@' = 1 ∧ (∀ c ∈ l, jsWs c = false) ∧
    ∃ pre post, l = pre ++ '@' :: post ∧ pre ≠ [] ∧
      ∃ a b, post = a ++ '.' :: b ∧ a ≠ [] ∧ b ≠ []

/-- The phone symbols other than the plus: digits, whitespace, hyphens,
parentheses. -/
def basePhoneChar (c : Char) : Bool :=
  c.isDigit || c == '-' || c == '(' || c == ')' || jsWs c

/-- Spec wording for the phone format as claimed: only digits, spaces,
hyphens, parentheses, and a plus in leading position only, with total length
at least 10. -/
def phoneClaimOk (l : List Char) : Bool :=
  decide (10 ≤ l.length) && (l.drop 1).all basePhoneChar &&
    (l.take 1).all (fun c => basePhoneChar c || c == '+')

/-- Spec wording for the cross-field location rule as claimed: equality after
trimming and lowercasing both values. -/
def trimCiEq (a b : String) : Bool :=
  (jsTrim a.data).map Char.toLower == (jsTrim b.data).map Char.toLower

/-- Spec wording for the passengers rule as claimed: the value coerces to an
integer between 1 and 8 inclusive. -/
def intInRange (p : String) : Bool :=
  match jsToNumber p with
  | .num q => q.den == 1 && decide (1 ≤ q) && decide (q ≤ 8)
  | _ => false

/-! ## Concrete forms used by counterexamples and witnesses -/

/-- A booking whose two locations differ only by a trailing space: equal after
trimming (case-insensitively), yet distinct for the untrimmed comparison the
code performs; every other field is valid. -/
def bookingTrailingSpace : BookingForm :=
  { service := "economy", fullName := "Ann Lee", email := "a@b.c",
    phone := "555-123-4567", pickupLocation := "Main St",
    dropoffLocation := "Main St ", date := "2026-12-01", time := "10:00",
    passengers := "4", paymentMethod := "cash", terms := true, privacy := true }

/-- A booking that is valid except that the passengers field holds the
non-numeric string "abc", whose numeric coercion is NaN. -/
def bookingLetterSeats : BookingForm :=
  { service := "economy", fullName := "Ann Lee", email := "a@b.c",
    phone := "555-123-4567", pickupLocation := "Main St",
    dropoffLocation := "Airport", date := "2026-12-01", time := "10:00",
    passengers := "abc", paymentMethod := "cash", terms := true, privacy := true }

/-- A booking with every field empty or unchecked. -/
def bookingAllEmpty : BookingForm :=
  { service := "", fullName := "", email := "", phone := "",
    pickupLocation := "", dropoffLocation := "", date := "", time := "",
    passengers := "", paymentMethod := "", terms := false, privacy := false }

/-- A contact form with every field empty. -/
def contactAllEmpty : ContactForm :=
  { name := "", email := "", phone := "", subject := "", message := "" }

/-- A booking with an empty pickup location and a non-empty drop-off. -/
def bookingEmptyPickup : BookingForm :=
  { service := "economy", fullName := "Ann Lee", email := "a@b.c",
    phone := "555-123-4567", pickupLocation := "",
    dropoffLocation := "Airport", date := "2026-12-01", time := "10:00",
    passengers := "4", paymentMethod := "cash", terms := true, privacy := true }

/-- A booking with the two locations equal up to letter case. -/
def bookingSamePlace : BookingForm :=
  { service := "economy", fullName := "Ann Lee", email := "a@b.c",
    phone := "555-123-4567", pickupLocation := "AIRPORT",
    dropoffLocation := "airport", date := "2026-12-01", time := "10:00",
    passengers := "4", paymentMethod := "cash", terms := true, privacy := true }

/-! ## Matcher correctness -/

theorem matchRE_nil (r : RE) : matchRE r [] = r.nullable := rfl

theorem matchRE_cons (r : RE) (c : Char) (l : List Char) :
    matchRE r (c :: l) = matchRE (r.deriv c) l := rfl

theorem zero_matchRE (l : List Char) : matchRE RE.zero l = false := by
  induction l with
  | nil => rfl
  | cons c l ih => simpa [matchRE, RE.deriv] using ih

theorem eps_matchRE_iff (l : List Char) : matchRE RE.eps l = true ↔ l = [] := by
  cases l with
  | nil => simp [matchRE, RE.nullable]
  | cons c l => simp [matchRE, RE.deriv, zero_matchRE]

theorem cls_matchRE_iff (p : Char → Bool) (l : List Char) :
    matchRE (RE.cls p) l = true ↔ ∃ c, l = [c] ∧ p c = true := by
  cases l with
  | nil => simp [matchRE, RE.nullable]
  | cons c l =>
    rw [matchRE_cons]
    show matchRE (if p c then RE.eps else RE.zero) l = true ↔ _
    by_cases hp : p c = true
    · simp only [hp, if_true, eps_matchRE_iff]
      constructor
      · rintro rfl; exact ⟨c, rfl, hp⟩
      · rintro ⟨d, hd, _⟩
        exact (List.cons.injEq .. ▸ hd).2
    · rw [if_neg hp, zero_matchRE]
      simp only [Bool.false_eq_true, false_iff]
      rintro ⟨d, hd, hpd⟩
      obtain ⟨rfl, -⟩ := List.cons.injEq .. ▸ hd
      exact absurd hpd hp

theorem alt_matchRE_iff (a b : RE) (l : List Char) :
    matchRE (RE.alt a b) l = true ↔ matchRE a l = true ∨ matchRE b l = true := by
  induction l generalizing a b with
  | nil => simp [matchRE, RE.nullable]
  | cons c l ih => simpa [matchRE, RE.deriv] using ih (a.deriv c) (b.deriv c)

theorem seq_matchRE_iff (a b : RE) (l : List Char) :
    matchRE (RE.seq a b) l = true ↔
      ∃ t u, l = t ++ u ∧ matchRE a t = true ∧ matchRE b u = true := by
  induction l generalizing a b with
  | nil =>
    simp only [matchRE, RE.nullable, Bool.and_eq_true]
    constructor
    · rintro ⟨ha, hb⟩
      exact ⟨[], [], rfl, ha, hb⟩
    · rintro ⟨t, u, htu, ha, hb⟩
      obtain ⟨rfl, rfl⟩ := List.append_eq_nil.mp htu.symm
      exact ⟨ha, hb⟩
  | cons c l ih =>
    rw [matchRE_cons]
    show matchRE (RE.deriv (RE.seq a b) c) l = true ↔ _
    rw [RE.deriv]
    by_cases hn : a.nullable = true
    · rw [if_pos hn, alt_matchRE_iff, ih]
      constructor
      · rintro (⟨t, u, rfl, hda, hb⟩ | hdb)
        · exact ⟨c :: t, u, rfl, hda, hb⟩
        · exact ⟨[], c :: l, rfl, hn, hdb⟩
      · rintro ⟨t, u, htu, ha, hb⟩
        cases t with
        | nil =>
          right
          have hu : u = c :: l := by simpa using htu.symm
          rw [hu, matchRE_cons] at hb
          exact hb
        | cons d t =>
          left
          obtain ⟨rfl, rfl⟩ := List.cons.injEq .. ▸ htu
          exact ⟨t, u, rfl, ha, hb⟩
    · rw [if_neg hn, ih]
      constructor
      · rintro ⟨t, u, rfl, hda, hb⟩
        exact ⟨c :: t, u, rfl, hda, hb⟩
      · rintro ⟨t, u, htu, ha, hb⟩
        cases t with
        | nil => exact absurd (matchRE_nil a ▸ ha) hn
        | cons d t =>
          obtain ⟨rfl, rfl⟩ := List.cons.injEq .. ▸ htu
          exact ⟨t, u, rfl, ha, hb⟩

/-- Star of a character class accepts exactly the words all of whose
characters lie in the class. -/
theorem starCls_matchRE_iff (p : Char → Bool) (l : List Char) :
    matchRE (RE.star (RE.cls p)) l = true ↔ ∀ c ∈ l, p c = true := by
  induction l with
  | nil => simp [matchRE, RE.nullable]
  | cons c l ih =>
    rw [matchRE_cons]
    show matchRE (RE.seq (RE.deriv (RE.cls p) c) (RE.star (RE.cls p))) l = true ↔ _
    rw [seq_matchRE_iff]
    have hd : RE.deriv (RE.cls p) c = if p c then RE.eps else RE.zero := rfl
    by_cases hp : p c = true
    · constructor
      · rintro ⟨t, u, hlu, ht, hu⟩
        rw [hd, if_pos hp] at ht
        obtain rfl := (eps_matchRE_iff t).mp ht
        rw [List.nil_append] at hlu
        subst hlu
        intro d hmem
        rcases List.mem_cons.mp hmem with rfl | hmem
        · exact hp
        · exact ih.mp hu d hmem
      · intro h
        refine ⟨[], l, rfl, ?_, ?_⟩
        · rw [hd, if_pos hp]; rfl
        · exact ih.mpr fun d hmem => h d (List.mem_cons_of_mem _ hmem)
    · constructor
      · rintro ⟨t, u, hlu, ht, hu⟩
        rw [hd, if_neg hp, zero_matchRE] at ht
        simp at ht
      · intro h
        exact absurd (h c (List.mem_cons_self c l)) hp

/-- One-or-more of a character class: a non-empty word inside the class. -/
theorem plusC_matchRE_iff (p : Char → Bool) (l : List Char) :
    matchRE (plusC p) l = true ↔ l ≠ [] ∧ ∀ c ∈ l, p c = true := by
  rw [plusC, seq_matchRE_iff]
  constructor
  · rintro ⟨t, u, rfl, ht, hu⟩
    obtain ⟨c, rfl, hc⟩ := (cls_matchRE_iff p t).mp ht
    refine ⟨by simp, ?_⟩
    intro d hd
    rcases List.mem_cons.mp hd with rfl | hd
    · exact hc
    · exact (starCls_matchRE_iff p u).mp hu d hd
  · rintro ⟨hne, hall⟩
    cases l with
    | nil => exact absurd rfl hne
    | cons c l =>
      refine ⟨[c], l, rfl, ?_, ?_⟩
      · exact (cls_matchRE_iff p [c]).mpr ⟨c, rfl, hall c (List.mem_cons_self c l)⟩
      · exact (starCls_matchRE_iff p l).mpr fun d hd => hall d (List.mem_cons_of_mem _ hd)

/-- At-least-n of a character class: class membership with a length bound. -/
theorem atLeast_matchRE_iff (p : Char → Bool) (n : Nat) (l : List Char) :
    matchRE (atLeast p n) l = true ↔ n ≤ l.length ∧ ∀ c ∈ l, p c = true := by
  induction n generalizing l with
  | zero => simpa [atLeast] using starCls_matchRE_iff p l
  | succ n ih =>
    rw [atLeast, seq_matchRE_iff]
    constructor
    · rintro ⟨t, u, rfl, ht, hu⟩
      obtain ⟨c, rfl, hc⟩ := (cls_matchRE_iff p t).mp ht
      obtain ⟨hlen, hall⟩ := (ih u).mp hu
      refine ⟨by simpa using Nat.succ_le_succ hlen, ?_⟩
      intro d hd
      rcases List.mem_cons.mp hd with rfl | hd
      · exact hc
      · exact hall d hd
    · rintro ⟨hlen, hall⟩
      cases l with
      | nil => simp at hlen
      | cons c l =>
        refine ⟨[c], l, rfl, ?_, ?_⟩
        · exact (cls_matchRE_iff p [c]).mpr ⟨c, rfl, hall c (List.mem_cons_self c l)⟩
        · exact (ih l).mpr ⟨Nat.le_of_succ_le_succ (by simpa using hlen),
            fun d hd => hall d (List.mem_cons_of_mem _ hd)⟩

theorem chrRE_matchRE_iff (c : Char) (l : List Char) :
    matchRE (chrRE c) l = true ↔ l = [c] := by
  rw [chrRE, cls_matchRE_iff]
  constructor
  · rintro ⟨d, rfl, hd⟩
    rw [show d = c from by simpa using hd]
  · rintro rfl
    exact ⟨c, rfl, by simp⟩

/-- Decomposition of the email regex: a class-1 block, the at-sign, a class-1
block, a dot, and a final class-1 block. -/
theorem emailRE_matchRE_iff (l : List Char) :
    matchRE emailRE l = true ↔
      ∃ x y z, l = x ++ '@' :: (y ++ '.' :: z) ∧
        (x ≠ [] ∧ ∀ c ∈ x, emailChar c = true) ∧
        (y ≠ [] ∧ ∀ c ∈ y, emailChar c = true) ∧
        (z ≠ [] ∧ ∀ c ∈ z, emailChar c = true) := by
  rw [emailRE]
  simp only [seq_matchRE_iff, plusC_matchRE_iff, chrRE_matchRE_iff]
  constructor
  · rintro ⟨x, u, rfl, hx, t2, u2, rfl, rfl, y, u3, rfl, hy, t4, z, rfl, rfl, hz⟩
    exact ⟨x, y, z, by simp, hx, hy, hz⟩
  · rintro ⟨x, y, z, rfl, hx, hy, hz⟩
    exact ⟨x, '@' :: (y ++ '.' :: z), rfl, hx, ['@'], y ++ '.' :: z, rfl, rfl,
      y, '.' :: z, rfl, hy, ['.'], z, rfl, rfl, hz⟩

theorem emailChar_elim {w : List Char} (hw : ∀ c ∈ w, emailChar c = true) :
    ∀ c ∈ w, jsWs c = false ∧ c ≠ '@' := by
  intro c hc
  have h1 := hw c hc
  rw [emailChar, Bool.and_eq_true, Bool.not_eq_true', Bool.not_eq_true'] at h1
  exact ⟨h1.1, by simpa using h1.2⟩

theorem emailChar_intro {c : Char} (h1 : jsWs c = false) (h2 : c ≠ '@') :
    emailChar c = true := by
  rw [emailChar, Bool.and_eq_true, Bool.not_eq_true', Bool.not_eq_true']
  exact ⟨h1, by simpa using h2⟩

/-- The email regex accepts exactly the strings described by the spec wording
`emailSpec`. -/
theorem emailRE_iff_emailSpec (l : List Char) :
    matchRE emailRE l = true ↔ emailSpec l := by
  rw [emailRE_matchRE_iff, emailSpec]
  constructor
  · rintro ⟨x, y, z, rfl, ⟨hx0, hx⟩, ⟨hy0, hy⟩, ⟨hz0, hz⟩⟩
    have hxm := emailChar_elim hx
    have hym := emailChar_elim hy
    have hzm := emailChar_elim hz
    have cx : x.count '@' = 0 := List.count_eq_zero.mpr fun h => (hxm '@' h).2 rfl
    have cy : y.count '@' = 0 := List.count_eq_zero.mpr fun h => (hym '@' h).2 rfl
    have cz : z.count '@' = 0 := List.count_eq_zero.mpr fun h => (hzm '@' h).2 rfl
    refine ⟨?_, ?_, x, y ++ '.' :: z, rfl, hx0, y, z, rfl, hy0, hz0⟩
    · rw [List.count_append, List.count_cons_self, List.count_append,
        List.count_cons_of_ne (by decide), cx, cy, cz]
    · intro c hc
      rcases List.mem_append.mp hc with hc | hc
      · exact (hxm c hc).1
      · rcases List.mem_cons.mp hc with rfl | hc
        · decide
        · rcases List.mem_append.mp hc with hc | hc
          · exact (hym c hc).1
          · rcases List.mem_cons.mp hc with rfl | hc
            · decide
            · exact (hzm c hc).1
  · rintro ⟨hcount, hws, pre, post, rfl, hpre, a, b, rfl, ha, hb⟩
    rw [List.count_append, List.count_cons_self] at hcount
    have cpre : pre.count '@' = 0 := by omega
    have cpost : (a ++ '.' :: b).count '@' = 0 := by omega
    have hnopost : '@' ∉ a ++ '.' :: b := List.count_eq_zero.mp cpost
    refine ⟨pre, a, b, rfl, ⟨hpre, ?_⟩, ⟨ha, ?_⟩, ⟨hb, ?_⟩⟩
    · intro c hc
      refine emailChar_intro (hws c (List.mem_append_left _ hc)) ?_
      rintro rfl
      exact absurd hc (List.count_eq_zero.mp cpre)
    · intro c hc
      refine emailChar_intro
        (hws c (List.mem_append_right _ (List.mem_cons_of_mem _
          (List.mem_append_left _ hc)))) ?_
      rintro rfl
      exact hnopost (List.mem_append_left _ hc)
    · intro c hc
      refine emailChar_intro
        (hws c (List.mem_append_right _ (List.mem_cons_of_mem _
          (List.mem_append_right _ (List.mem_cons_of_mem _ hc))))) ?_
      rintro rfl
      exact hnopost (List.mem_append_right _ (List.mem_cons_of_mem _ hc))

/-! ## Orchestration: the fold over checks -/

theorem foldl_checkStep (checks : List (Bool × String × String)) :
    ∀ (errs : List (String × String)) (v : Bool),
      checks.foldl checkStep (errs, v) =
        (errs ++ checks.filterMap (fun c => if c.1 then some (c.2.1, c.2.2) else none),
          v && checks.all (fun c => !c.1)) := by
  induction checks with
  | nil => intro errs v; simp
  | cons c cs ih =>
    intro errs v
    rw [List.foldl_cons]
    by_cases h : c.1 = true
    · rw [show checkStep (errs, v) c = (errs ++ [(c.2.1, c.2.2)], false) from by
        simp [checkStep, h]]
      rw [ih]
      simp [h, List.filterMap_cons]
    · rw [show checkStep (errs, v) c = (errs, v) from by simp [checkStep, h]]
      rw [ih]
      simp only [List.filterMap_cons, h, if_false, List.all_cons,
        Bool.not_eq_true] at *
      simp [h]

theorem runChecks_fst (checks : List (Bool × String × String)) :
    (runChecks checks).1 =
      checks.filterMap (fun c => if c.1 then some (c.2.1, c.2.2) else none) := by
  rw [runChecks, foldl_checkStep]
  simp

theorem runChecks_snd (checks : List (Bool × String × String)) :
    (runChecks checks).2 = checks.all (fun c => !c.1) := by
  rw [runChecks, foldl_checkStep]
  simp

theorem mem_runChecks_fst (e : String × String) (checks : List (Bool × String × String)) :
    e ∈ (runChecks checks).1 ↔ ∃ c ∈ checks, c.1 = true ∧ (c.2.1, c.2.2) = e := by
  rw [runChecks_fst, List.mem_filterMap]
  constructor
  · rintro ⟨c, hc, hfc⟩
    by_cases h : c.1 = true
    · rw [if_pos h] at hfc
      exact ⟨c, hc, h, by simpa using hfc⟩
    · rw [if_neg h] at hfc
      cases hfc
  · rintro ⟨c, hc, h, rfl⟩
    exact ⟨c, hc, by rw [if_pos h]⟩

theorem runChecks_snd_false_of_mem {checks : List (Bool × String × String)}
    {c : Bool × String × String} (hc : c ∈ checks) (h : c.1 = true) :
    (runChecks checks).2 = false := by
  rw [runChecks_snd]
  rcases hall : checks.all (fun c => !c.1) with _ | _
  · rfl
  · have := List.all_eq_true.mp hall c hc
    rw [h] at this
    cases this

theorem runChecks_snd_iff_fst_nil (checks : List (Bool × String × String)) :
    (runChecks checks).2 = true ↔ (runChecks checks).1 = [] := by
  rw [runChecks_fst, runChecks_snd, List.all_eq_true, List.filterMap_eq_nil_iff]
  constructor
  · intro h c hc
    rw [if_neg (by simpa using h c hc)]
  · intro h c hc
    have := h c hc
    by_cases hcond : c.1 = true
    · rw [if_pos hcond] at this
      cases this
    · simpa using hcond

/-- Sanity of the ToNumber model on the coercion cases that matter for the
passengers check: whitespace-only coerces to 0, exponent literals and signs
are honoured, `Infinity` is infinite, hex parses, and non-numeric text is
NaN — so the corresponding out-of-range values fail the check. -/
theorem jsToNumber_coercion_cases :
    jsToNumber "   " = JSNum.num 0 ∧ jsToNumber "1e1" = JSNum.num 10 ∧
    jsToNumber "Infinity" = JSNum.posInf ∧ jsToNumber "0x10" = JSNum.num 16 ∧
    jsToNumber "-3" = JSNum.num (-3) ∧ jsToNumber "abc" = JSNum.nan ∧
    passengersInvalid "   " = true ∧ passengersInvalid "1e1" = true ∧
    passengersInvalid "Infinity" = true ∧ passengersInvalid "-3" = true := by
  decide

/-! ## Claim theorems -/

/-- C1 (counterexample): a booking whose pickup and drop-off are equal after
trimming and lowercasing ("Main St" versus "Main St ") but distinct for the
untrimmed comparison the code performs passes validation with no error at all
— the claimed trimmed comparison does not match the code, which compares the
raw lowercased values. -/
theorem pickup_dropoff_claim_cex :
    trimCiEq bookingTrailingSpace.pickupLocation bookingTrailingSpace.dropoffLocation = true ∧
    (handleBookingSubmit 0 bookingTrailingSpace).1 = [] ∧
    (handleBookingSubmit 0 bookingTrailingSpace).2 = true := by
  decide

/-- C1 (amended): when the pickup and drop-off strings are equal after
lowercasing (no trimming), validation always fails with an error attached to
the drop-off field: the must-differ error when both are non-empty, the
required-field error when both are empty. -/
theorem pickup_dropoff_ci_equal_fails :
    ∀ (today : Nat) (f : BookingForm),
      jsToLower f.pickupLocation = jsToLower f.dropoffLocation →
      (∃ m, ("dropoffLocation", m) ∈ (handleBookingSubmit today f).1) ∧
      (handleBookingSubmit today f).2 = false := by
  intro today f h
  have hdata : f.pickupLocation.data.map Char.toLower =
      f.dropoffLocation.data.map Char.toLower := congrArg String.data h
  by_cases hp : f.pickupLocation = ""
  · have hd : f.dropoffLocation = "" := by
      apply String.ext
      rw [hp] at hdata
      simpa using (List.map_eq_nil_iff.mp hdata.symm)
    have hc : (f.dropoffLocation == "", "dropoffLocation",
        "Drop-off location is required") ∈ bookingChecks today f := by
      simp [bookingChecks]
    have hcond : (f.dropoffLocation == "") = true := by simp [hd]
    refine ⟨⟨"Drop-off location is required", ?_⟩, ?_⟩
    · exact (mem_runChecks_fst _ _).mpr ⟨_, hc, hcond, rfl⟩
    · exact runChecks_snd_false_of_mem hc hcond
  · have hdne : f.dropoffLocation ≠ "" := by
      intro hd
      apply hp
      apply String.ext
      rw [hd] at hdata
      simpa using (List.map_eq_nil_iff.mp hdata)
    have hc : (f.pickupLocation != "" && f.dropoffLocation != "" &&
        jsToLower f.pickupLocation == jsToLower f.dropoffLocation,
        "dropoffLocation", "Pickup and drop-off locations must be different") ∈
        bookingChecks today f := by
      simp [bookingChecks]
    have hcond : (f.pickupLocation != "" && f.dropoffLocation != "" &&
        jsToLower f.pickupLocation == jsToLower f.dropoffLocation) = true := by
      simp [hp, hdne, h]
    refine ⟨⟨"Pickup and drop-off locations must be different", ?_⟩, ?_⟩
    · exact (mem_runChecks_fst _ _).mpr ⟨_, hc, hcond, rfl⟩
    · exact runChecks_snd_false_of_mem hc hcond

/-- C1 (witness): a booking whose two locations are equal up to case gets a
drop-off error and fails. -/
theorem pickup_dropoff_ci_equal_fails_witness :
    (∃ m, ("dropoffLocation", m) ∈ (handleBookingSubmit 0 bookingSamePlace).1) ∧
    (handleBookingSubmit 0 bookingSamePlace).2 = false :=
  pickup_dropoff_ci_equal_fails 0 bookingSamePlace (by decide)

/-- C2: for every string that parses as a calendar date, `isValidDate` accepts
it exactly when the date is on or after the current day (time-of-day zeroed);
in particular yesterday is rejected while today and tomorrow are accepted. -/
theorem isValidDate_on_or_after_today :
    ∀ (today : Nat) (s : String) (n : Nat), parseDate s = some n →
      ((isValidDate today s = true ↔ today ≤ n) ∧
        (n + 1 = today → isValidDate today s = false) ∧
        (n = today → isValidDate today s = true) ∧
        (n = today + 1 → isValidDate today s = true)) := by
  intro today s n h
  have hval : isValidDate today s = decide (today ≤ n) := by
    rw [isValidDate, h]
  rw [hval]
  refine ⟨by simp, ?_, ?_, ?_⟩
  · intro he
    simp only [decide_eq_false_iff_not]
    omega
  · intro he
    simp only [decide_eq_true_eq]
    omega
  · intro he
    simp only [decide_eq_true_eq]
    omega

/-- C2 (witness): with the current day 2026-10-11 (day number 740205),
yesterday's date string is rejected, today's and tomorrow's accepted. -/
theorem isValidDate_on_or_after_today_witness :
    isValidDate 740205 "2026-10-10" = false ∧
    isValidDate 740205 "2026-10-11" = true ∧
    isValidDate 740205 "2026-10-12" = true :=
  ⟨(isValidDate_on_or_after_today 740205 "2026-10-10" 740204 (by decide)).2.1 (by decide),
   (isValidDate_on_or_after_today 740205 "2026-10-11" 740205 (by decide)).2.2.1 (by decide),
   (isValidDate_on_or_after_today 740205 "2026-10-12" 740206 (by decide)).2.2.2 (by decide)⟩

/-- C3 (counterexample): the string "abc" does not denote an integer in
[1, 8], yet the passengers check passes it (both numeric comparisons are
against NaN, hence false), and a full booking submission carrying it
succeeds with no error. -/
theorem passengers_claim_cex :
    intInRange "abc" = false ∧ passengersInvalid "abc" = false ∧
    (handleBookingSubmit 0 bookingLetterSeats).1 = [] ∧
    (handleBookingSubmit 0 bookingLetterSeats).2 = true := by
  decide

/-- C3 (amended): the passengers field passes validation exactly when it is
non-empty and its ToNumber coercion is either NaN or a finite number between
1 and 8 inclusive; integrality is not checked, so non-numeric strings (NaN)
and in-range non-integers pass, while whitespace-only strings (coercing to
0), out-of-range exponent literals and infinities fail. -/
theorem passengersInvalid_iff :
    ∀ p : String, passengersInvalid p = false ↔
      (p ≠ "" ∧ (jsToNumber p = JSNum.nan ∨
        ∃ q : ℚ, jsToNumber p = JSNum.num q ∧ 1 ≤ q ∧ q ≤ 8)) := by
  intro p
  rw [passengersInvalid]
  cases h : jsToNumber p with
  | nan => simp [jsNumLt, jsNumGt, beq_iff_eq]
  | posInf => simp [jsNumLt, jsNumGt]
  | negInf => simp [jsNumLt, jsNumGt]
  | num q =>
    simp only [jsNumLt, jsNumGt, Bool.or_eq_false_iff, beq_eq_false_iff_ne, ne_eq,
      decide_eq_false_iff_not, not_lt, JSNum.num.injEq, reduceCtorEq, false_or]
    constructor
    · rintro ⟨⟨hne, h1⟩, h8⟩
      exact ⟨hne, q, rfl, h1, h8⟩
    · rintro ⟨hne, r, rfl, h1, h8⟩
      exact ⟨⟨hne, h1⟩, h8⟩

/-- C3 (witness): the integer string "3" passes the passengers check. -/
theorem passengersInvalid_iff_witness : passengersInvalid "3" = false := by
  refine (passengersInvalid_iff "3").mpr ⟨by decide, Or.inr ⟨3, ?_, by norm_num, by norm_num⟩⟩
  decide

/-- C4 (counterexample): the code's phone regex allows a plus sign anywhere,
so "12345678+9" is accepted although it violates the claimed leading-plus-only
format. -/
theorem isValidPhone_claim_cex :
    isValidPhone "12345678+9" = true ∧ phoneClaimOk ("12345678+9".data) = false := by
  decide

/-- C4 (amended): `isValidPhone` accepts exactly the strings of length at
least 10 all of whose characters are digits, whitespace, hyphens,
parentheses, or plus signs (a plus is allowed at any position); in particular
every shorter string is rejected and "555-123-4567" is accepted. -/
theorem isValidPhone_iff :
    (∀ s : String, isValidPhone s = true ↔
      10 ≤ s.data.length ∧ ∀ c ∈ s.data, phoneChar c = true) ∧
    isValidPhone "555-123-4567" = true ∧
    (∀ s : String, s.data.length < 10 → isValidPhone s = false) := by
  have hiff : ∀ s : String, isValidPhone s = true ↔
      10 ≤ s.data.length ∧ ∀ c ∈ s.data, phoneChar c = true := by
    intro s
    rw [isValidPhone, atLeast_matchRE_iff]
  refine ⟨hiff, by decide, ?_⟩
  intro s hlen
  rcases hv : isValidPhone s with _ | _
  · rfl
  · obtain ⟨h10, -⟩ := (hiff s).mp hv
    omega

/-- C4 (witness): a two-character string is rejected by the phone validator. -/
theorem isValidPhone_iff_witness : isValidPhone "12" = false :=
  isValidPhone_iff.2.2 "12" (by decide)

/-- C5: in both handlers every failing check contributes its own field-scoped
error in the same pass (no short-circuit across fields), and the success flag
is set exactly when the error list is empty, so failures do nothing beyond
preventing the success transition. -/
theorem all_failures_reported :
    ∀ (today : Nat) (f : BookingForm) (g : ContactForm),
      (∀ c ∈ bookingChecks today f, c.1 = true →
        (c.2.1, c.2.2) ∈ (handleBookingSubmit today f).1) ∧
      ((handleBookingSubmit today f).2 = true ↔ (handleBookingSubmit today f).1 = []) ∧
      (∀ c ∈ contactChecks g, c.1 = true → (c.2.1, c.2.2) ∈ (handleContactSubmit g).1) ∧
      ((handleContactSubmit g).2 = true ↔ (handleContactSubmit g).1 = []) := by
  intro today f g
  refine ⟨?_, runChecks_snd_iff_fst_nil _, ?_, runChecks_snd_iff_fst_nil _⟩
  · intro c hc h
    exact (mem_runChecks_fst _ _).mpr ⟨c, hc, h, rfl⟩
  · intro c hc h
    exact (mem_runChecks_fst _ _).mpr ⟨c, hc, h, rfl⟩

/-- C5 (witness): on all-empty submissions, both the booking and the contact
handler report the failing fields. -/
theorem all_failures_reported_witness :
    ("service", "Please select a service type") ∈
      (handleBookingSubmit 0 bookingAllEmpty).1 ∧
    ("message", "Message is required") ∈ (handleContactSubmit contactAllEmpty).1 :=
  ⟨(all_failures_reported 0 bookingAllEmpty contactAllEmpty).1
      (true, "service", "Please select a service type") (by decide) rfl,
   (all_failures_reported 0 bookingAllEmpty contactAllEmpty).2.2.1
      (true, "message", "Message is required") (by decide) rfl⟩

/-- C6: a service key absent from the fare table (or mapped to zero) yields no
estimate and the price panel is hidden; otherwise the estimate is the base
price plus the fixed surcharge 10; "economy" gives base 10 and total 20, an
unknown key gives no estimate. -/
theorem updateEstimatedFare_spec :
    (∀ s : String, baseFares s = none ∨ baseFares s = some 0 →
      updateEstimatedFare s = none) ∧
    (∀ (s : String) (b : Nat), baseFares s = some b → 0 < b →
      updateEstimatedFare s = some (b, b + 10)) ∧
    updateEstimatedFare "economy" = some (10, 20) ∧
    updateEstimatedFare "starship" = none := by
  refine ⟨?_, ?_, by decide, by decide⟩
  · intro s h
    rcases h with h | h <;> simp [updateEstimatedFare, h]
  · intro s b h hb
    simp [updateEstimatedFare, h, hb]

/-- C6 (witness): the "comfort" key has base 15 and total 25. -/
theorem updateEstimatedFare_spec_witness :
    updateEstimatedFare "comfort" = some (15, 25) :=
  updateEstimatedFare_spec.2.1 "comfort" 15 (by decide) (by decide)

/-- C7: the email validator accepts exactly the strings with a single at-sign
preceded by at least one non-whitespace non-at character, at least one dot
after the at-sign with non-empty segments around it, and no whitespace
anywhere; strings without an at-sign are rejected and "a@b.c" is accepted. -/
theorem isValidEmail_iff_emailSpec :
    (∀ s : String, isValidEmail s = true ↔ emailSpec s.data) ∧
    isValidEmail "a@b.c" = true ∧
    (∀ s : String, (∀ c ∈ s.data, c ≠ '@') → isValidEmail s = false) := by
  refine ⟨fun s => emailRE_iff_emailSpec s.data, by decide, ?_⟩
  intro s h
  rcases hv : isValidEmail s with _ | _
  · rfl
  · exfalso
    obtain ⟨hcount, -, -⟩ := (emailRE_iff_emailSpec s.data).mp hv
    have hmem : '@' ∈ s.data := by
      by_contra hnm
      rw [List.count_eq_zero.mpr hnm] at hcount
      omega
    exact h '@' hmem rfl

/-- C7 (witness): a string without an at-sign is rejected. -/
theorem isValidEmail_iff_emailSpec_witness : isValidEmail "abc" = false :=
  isValidEmail_iff_emailSpec.2.2 "abc" (by decide)

/-- C8: the name validator accepts exactly the strings whose trimmed length is
at least 3 and whose untrimmed characters are all letters, whitespace,
apostrophes or hyphens; "", "Al" and "Ann123" are rejected, "Ann Lee" is
accepted. -/
theorem isValidName_iff :
    (∀ s : String, isValidName s = true ↔
      3 ≤ (jsTrim s.data).length ∧ ∀ c ∈ s.data, nameChar c = true) ∧
    isValidName "" = false ∧ isValidName "Al" = false ∧
    isValidName "Ann Lee" = true ∧ isValidName "Ann123" = false := by
  refine ⟨?_, by decide, by decide, by decide, by decide⟩
  intro s
  rw [isValidName, Bool.and_eq_true, decide_eq_true_eq, plusC_matchRE_iff]
  constructor
  · rintro ⟨h3, -, hall⟩
    exact ⟨h3, hall⟩
  · rintro ⟨h3, hall⟩
    refine ⟨h3, ?_, hall⟩
    intro h0
    rw [h0] at h3
    simp [jsTrim] at h3

/-- C8 (witness): "Bob" is accepted by the name validator. -/
theorem isValidName_iff_witness : isValidName "Bob" = true :=
  (isValidName_iff.1 "Bob").mpr ⟨by decide, by decide⟩

/-- C9: `isValidDate` is total — on every string that does not parse as a
calendar date it returns false (the NaN comparison fails) rather than
raising an error. -/
theorem isValidDate_unparseable :
    ∀ (today : Nat) (s : String), parseDate s = none → isValidDate today s = false := by
  intro today s h
  rw [isValidDate, h]

/-- C9 (witness): the non-date string "hello" is rejected, not an error. -/
theorem isValidDate_unparseable_witness : isValidDate 5 "hello" = false :=
  isValidDate_unparseable 5 "hello" (by decide)

/-- C10: the must-differ error is attached to the drop-off field only when
both locations are non-empty: with either location empty, that error never
appears. -/
theorem no_mustdiffer_when_empty :
    ∀ (today : Nat) (f : BookingForm),
      f.pickupLocation = "" ∨ f.dropoffLocation = "" →
      ("dropoffLocation", "Pickup and drop-off locations must be different") ∉
        (handleBookingSubmit today f).1 := by
  intro today f h hmem
  rw [show (handleBookingSubmit today f).1 = (runChecks (bookingChecks today f)).1 from rfl,
    mem_runChecks_fst] at hmem
  obtain ⟨c, hc, hcond, hpair⟩ := hmem
  simp only [bookingChecks, List.mem_cons, List.not_mem_nil, or_false] at hc
  rcases hc with rfl | rfl | rfl | rfl | rfl | rfl | rfl | rfl | rfl | rfl | rfl |
    rfl | rfl | rfl | rfl | rfl | rfl | rfl | rfl <;>
    try simp at hpair
  rcases h with h | h <;> rw [h] at hcond <;> simp [bne_self_eq_false] at hcond

/-- C10 (witness): with an empty pickup location, the must-differ error is
absent from the booking submission's errors. -/
theorem no_mustdiffer_when_empty_witness :
    ("dropoffLocation", "Pickup and drop-off locations must be different") ∉
      (handleBookingSubmit 0 bookingEmptyPickup).1 :=
  no_mustdiffer_when_empty 0 bookingEmptyPickup (Or.inl rfl)

end TaxiService
